import Mathlib

/-!
Shallow embedding of `src/src/lsproto.rs` (the RLS language-server core):
the message parser, the framing-header reader, the position-to-span
resolver, and the hover / goto-def / find-all-refs / initialize reply
builders, together with theorems settling the specification claims.

Rust conventions are modelled as follows: a value of type `Option α`
stands for a fallible lookup (`None` = absent); `POutcome α` is the
outcome of Rust code that may `panic` through `.unwrap()` or return an
`io::Result::Err`; machine integers (`usize`, `u64`) are `Nat` (none of
the modelled code relies on overflow).
-/

namespace RLS

/-- Model of a `serde_json::Value`: the JSON tree `parse_message` inspects.
Numbers are modelled as `Nat` (the code only reads them through `as_u64`). -/
inductive Json where
  | null
  | bool (b : Bool)
  | num (n : Nat)
  | str (s : String)
  | arr (elems : List Json)
  | obj (fields : List (String × Json))

/-- First binding of `key` in an association list of JSON object fields. -/
def assocFind (key : String) : List (String × Json) → Option Json
  | [] => none
  | (k, v) :: rest => if k = key then some v else assocFind key rest

/-- `Value::lookup(key)`: field access on an object, `None` on anything else. -/
def Json.lookup (j : Json) (key : String) : Option Json :=
  match j with
  | .obj fields => assocFind key fields
  | _ => none

/-- `Value::as_str`. -/
def Json.as_str : Json → Option String
  | .str s => some s
  | _ => none

/-- `Value::as_u64`. -/
def Json.as_u64 : Json → Option Nat
  | .num n => some n
  | _ => none

/-- Outcome of Rust code that can `panic` (an `.unwrap()` of `None`/`Err`)
or return `io::Result::Err` with a message. -/
inductive POutcome (α : Type) where
  | ok (a : α)
  | err (msg : String)
  | panic
deriving DecidableEq

/-- `.unwrap()` followed by the continuation: `None` panics. -/
def unwrapP {α β : Type} : Option α → (α → POutcome β) → POutcome β
  | some a, k => k a
  | none, _ => POutcome.panic

structure Position where
  line : Nat
  character : Nat
deriving DecidableEq

structure Range where
  start : Position
  «end» : Position
deriving DecidableEq

structure Location where
  uri : String
  range : Range
deriving DecidableEq

structure InitializeParams where
  processId : Nat
  rootPath : String
deriving DecidableEq

structure Document where
  uri : String
deriving DecidableEq

structure VersionedTextDocumentIdentifier where
  version : Nat
  uri : String
deriving DecidableEq

structure TextDocumentContentChangeEvent where
  range : Range
  rangeLength : Option Nat
  text : String
deriving DecidableEq

structure ReferenceContext where
  includeDeclaration : Bool
deriving DecidableEq

structure ReferenceParams where
  textDocument : Document
  position : Position
  context : ReferenceContext
deriving DecidableEq

structure TextDocumentPositionParams where
  textDocument : Document
  position : Position
deriving DecidableEq

structure ChangeParams where
  textDocument : VersionedTextDocumentIdentifier
  contentChanges : List TextDocumentContentChangeEvent
deriving DecidableEq

structure HoverParams where
  textDocument : Document
  position : Position
deriving DecidableEq

structure CancelParams where
  id : Nat
deriving DecidableEq

inductive Method where
  | Shutdown
  | Initialize (params : InitializeParams)
  | Hover (params : HoverParams)
  | GotoDef (params : TextDocumentPositionParams)
  | FindAllRef (params : ReferenceParams)
deriving DecidableEq

structure Request where
  id : Nat
  method : Method
deriving DecidableEq

inductive Notification where
  | CancelRequest (id : Nat)
  | Change (params : ChangeParams)
deriving DecidableEq

inductive ServerMessage where
  | Request (r : Request)
  | Notification (n : Notification)
deriving DecidableEq

/-- serde derive for `Position` (both fields required `usize`). -/
def decodePosition (j : Json) : Option Position := do
  let l ← (j.lookup "line").bind Json.as_u64
  let c ← (j.lookup "character").bind Json.as_u64
  pure ⟨l, c⟩

/-- serde derive for `Range`. -/
def decodeRange (j : Json) : Option Range := do
  let s ← (j.lookup "start").bind fun v => decodePosition v
  let e ← (j.lookup "end").bind fun v => decodePosition v
  pure ⟨s, e⟩

/-- serde derive for `Document`. -/
def decodeDocument (j : Json) : Option Document := do
  let u ← (j.lookup "uri").bind Json.as_str
  pure ⟨u⟩

/-- serde derive for `InitializeParams`. -/
def decodeInitializeParams (j : Json) : Option InitializeParams := do
  let p ← (j.lookup "processId").bind Json.as_u64
  let r ← (j.lookup "rootPath").bind Json.as_str
  pure ⟨p, r⟩

/-- serde derive for `VersionedTextDocumentIdentifier`. -/
def decodeVersionedTextDocumentIdentifier (j : Json) : Option VersionedTextDocumentIdentifier := do
  let v ← (j.lookup "version").bind Json.as_u64
  let u ← (j.lookup "uri").bind Json.as_str
  pure ⟨v, u⟩

/-- serde derive for an `Option<u32>` field: absent or `null` is `None`. -/
def decodeOptNat (o : Option Json) : Option (Option Nat) :=
  match o with
  | none => some none
  | some Json.null => some none
  | some (Json.num n) => some (some n)
  | some _ => none

/-- serde derive for `TextDocumentContentChangeEvent`. -/
def decodeChangeEvent (j : Json) : Option TextDocumentContentChangeEvent := do
  let r ← (j.lookup "range").bind fun v => decodeRange v
  let rl ← decodeOptNat (j.lookup "rangeLength")
  let t ← (j.lookup "text").bind Json.as_str
  pure ⟨r, rl, t⟩

/-- serde derive for `ChangeParams`. -/
def decodeChangeParams (j : Json) : Option ChangeParams := do
  let td ← (j.lookup "textDocument").bind fun v => decodeVersionedTextDocumentIdentifier v
  let ccjson ← j.lookup "contentChanges"
  match ccjson with
  | Json.arr elems => do
    let cc ← elems.mapM decodeChangeEvent
    pure ⟨td, cc⟩
  | _ => none

/-- serde derive for `ReferenceContext`. -/
def decodeReferenceContext (j : Json) : Option ReferenceContext := do
  match j.lookup "includeDeclaration" with
  | some (Json.bool b) => pure ⟨b⟩
  | _ => none

/-- serde derive for `ReferenceParams`. -/
def decodeReferenceParams (j : Json) : Option ReferenceParams := do
  let td ← (j.lookup "textDocument").bind fun v => decodeDocument v
  let p ← (j.lookup "position").bind fun v => decodePosition v
  let c ← (j.lookup "context").bind fun v => decodeReferenceContext v
  pure ⟨td, p, c⟩

/-- serde derive for `TextDocumentPositionParams`. -/
def decodeTextDocumentPositionParams (j : Json) : Option TextDocumentPositionParams := do
  let td ← (j.lookup "textDocument").bind fun v => decodeDocument v
  let p ← (j.lookup "position").bind fun v => decodePosition v
  pure ⟨td, p⟩

/-- serde derive for `HoverParams`. -/
def decodeHoverParams (j : Json) : Option HoverParams := do
  let td ← (j.lookup "textDocument").bind fun v => decodeDocument v
  let p ← (j.lookup "position").bind fun v => decodePosition v
  pure ⟨td, p⟩

/-- serde derive for `CancelParams`. -/
def decodeCancelParams (j : Json) : Option CancelParams := do
  let i ← (j.lookup "id").bind Json.as_u64
  pure ⟨i⟩

/-- `parse_message` (lsproto.rs:223-281). The input is the result of
`serde_json::from_str`: `none` means the body was not valid JSON, and the
source immediately `.unwrap()`s that result, so invalid JSON panics.
Each `.unwrap()` of the source is an `unwrapP`. -/
def parse_message (input : Option Json) : POutcome ServerMessage :=
  unwrapP input fun ls_command =>
  let params := ls_command.lookup "params"
  match ls_command.lookup "method" with
  | some v =>
    match v.as_str with
    | some name =>
      if name = "shutdown" then
        unwrapP (ls_command.lookup "id") fun idv =>
        unwrapP idv.as_u64 fun id =>
        POutcome.ok (ServerMessage.Request ⟨id, Method.Shutdown⟩)
      else if name = "initialize" then
        unwrapP (ls_command.lookup "id") fun idv =>
        unwrapP idv.as_u64 fun id =>
        unwrapP params fun p =>
        unwrapP (decodeInitializeParams p) fun m =>
        POutcome.ok (ServerMessage.Request ⟨id, Method.Initialize m⟩)
      else if name = "textDocument/hover" then
        unwrapP (ls_command.lookup "id") fun idv =>
        unwrapP idv.as_u64 fun id =>
        unwrapP params fun p =>
        unwrapP (decodeHoverParams p) fun m =>
        POutcome.ok (ServerMessage.Request ⟨id, Method.Hover m⟩)
      else if name = "textDocument/didChange" then
        unwrapP params fun p =>
        unwrapP (decodeChangeParams p) fun m =>
        POutcome.ok (ServerMessage.Notification (Notification.Change m))
      else if name = "textDocument/definition" then
        unwrapP (ls_command.lookup "id") fun idv =>
        unwrapP idv.as_u64 fun id =>
        unwrapP params fun p =>
        unwrapP (decodeTextDocumentPositionParams p) fun m =>
        POutcome.ok (ServerMessage.Request ⟨id, Method.GotoDef m⟩)
      else if name = "textDocument/references" then
        unwrapP (ls_command.lookup "id") fun idv =>
        unwrapP idv.as_u64 fun id =>
        unwrapP params fun p =>
        unwrapP (decodeReferenceParams p) fun m =>
        POutcome.ok (ServerMessage.Request ⟨id, Method.FindAllRef m⟩)
      else if name = "$/cancelRequest" then
        unwrapP params fun p =>
        unwrapP (decodeCancelParams p) fun m =>
        POutcome.ok (ServerMessage.Notification (Notification.CancelRequest m.id))
      else POutcome.err "Unknown command"
    | none => POutcome.err "Method is not a string"
  | none => POutcome.err "Method not found"

/-- The method names `parse_message` recognizes. -/
def knownMethodNames : List String :=
  ["shutdown", "initialize", "textDocument/hover", "textDocument/didChange",
   "textDocument/definition", "textDocument/references", "$/cancelRequest"]

/-- What one iteration of `run_server`'s message match does to the loop
(lsproto.rs:581-666): a parse error is logged and the loop continues; a
`Shutdown` request breaks out of the loop; every other decoded message is
handled and the loop continues; a panic crashes the process. -/
inductive LoopAction where
  | cont
  | exitClean
  | crashed
deriving DecidableEq

/-- Control flow of `run_server`'s `match msg` (lsproto.rs:581-666). -/
def message_step : POutcome ServerMessage → LoopAction
  | POutcome.err _ => LoopAction.cont
  | POutcome.panic => LoopAction.crashed
  | POutcome.ok (ServerMessage.Request ⟨_, Method.Shutdown⟩) => LoopAction.exitClean
  | POutcome.ok _ => LoopAction.cont

/-! ## Framing header (run_server, lsproto.rs:545-576, 668-671) -/

/-- Rust `str::split(" ")`: splits at every single space, keeping empty
pieces, so the result always has one more piece than there are spaces. -/
def splitSpaceGo : List Char → List Char → List String
  | [], acc => [acc.reverse.asString]
  | ' ' :: rest, acc => acc.reverse.asString :: splitSpaceGo rest []
  | c :: rest, acc => splitSpaceGo rest (c :: acc)

/-- `buffer.split(" ")` of the source. -/
def splitSpace (s : String) : List String := splitSpaceGo s.toList []

/-- Rust `str::trim` (whitespace here is ASCII whitespace, which covers
every character the framing layer can produce). -/
def rustTrim (s : String) : String :=
  ((s.toList.dropWhile Char.isWhitespace).reverse.dropWhile Char.isWhitespace).reverse.asString

/-- Digit-string value in base 10. -/
def digitsVal (cs : List Char) : Nat :=
  cs.foldl (fun a c => a * 10 + (c.toNat - 48)) 0

/-- `usize::from_str_radix(s, 10)`: an optional leading `+`, then at least
one decimal digit (overflow is not modelled; the claims never reach it). -/
def from_str_radix_10 (s : String) : Option Nat :=
  match s.toList with
  | '+' :: rest =>
    if rest ≠ [] ∧ rest.all Char.isDigit then some (digitsVal rest) else none
  | cs =>
    if cs ≠ [] ∧ cs.all Char.isDigit then some (digitsVal cs) else none

/-- How `run_server` treats one header line (lsproto.rs:552-571, 668-671). -/
inductive HeaderOutcome where
  /-- the line did not split into exactly two fields: `Err(InvalidData, "Header is malformed")`
  returned from `run_server`. -/
  | fatalMalformed (line : String)
  /-- the first field was exactly `Content-length:`:
  `Err(InvalidData, "Header is missing 'Content-length'")` returned from `run_server`. -/
  | fatalLowercase
  /-- the second field parsed as an integer: proceed to read `n` body bytes. -/
  | readBody (n : Nat)
  /-- the second field was not an integer: log and `break`, so `run_server`
  returns `Ok(())`. -/
  | breakClean (second : String)
deriving DecidableEq

/-- The header checks of `run_server` (lsproto.rs:552-571, 668-671), in
source order: split on a space, require exactly two fields, reject the
first field when it is exactly `Content-length:`, then parse the trimmed
second field as a base-10 integer. -/
def header_step (buffer : String) : HeaderOutcome :=
  let res := splitSpace buffer
  if res.length ≠ 2 then HeaderOutcome.fatalMalformed buffer
  else if res.getD 0 "" = "Content-length:" then HeaderOutcome.fatalLowercase
  else
    match from_str_radix_10 (rustTrim (res.getD 1 "")) with
    | some size => HeaderOutcome.readBody size
    | none => HeaderOutcome.breakClean (res.getD 1 "")

/-- `io::stdin().read_exact(&mut content)` with `content` of length `n`
(lsproto.rs:569-574): take exactly `n` bytes from the stream, or fail with
an I/O error when the stream is shorter (a truncated body). -/
def read_exact (n : Nat) (stream : List Nat) : Except String (List Nat × List Nat) :=
  if n ≤ stream.length then Except.ok (stream.take n, stream.drop n)
  else Except.error "truncated body"

/-! ## Position-to-span resolver (`LSService::convert_pos_to_span`, lsproto.rs:331-369) -/

/-- Backend-facing coordinate (`analysis::Span`). -/
structure Span where
  file_name : String
  line_start : Nat
  column_start : Nat
  line_end : Nat
  column_end : Nat
deriving DecidableEq

/-- The identifier-character test `c.is_alphanumeric() || c == '_'` of the
source. Rust's `is_alphanumeric` is Unicode; `Char.isAlphanum` agrees with
it on ASCII, where every claim lives. -/
def is_ident (c : Char) : Bool := c.isAlphanum || c == '_'

/-- The `start_pos` loop of `convert_pos_to_span` (lsproto.rs:336-347):
`tmp` starts at 1; on each character, if it is not an identifier character
`tmp` becomes its index plus one; the loop breaks after handling the
character at index `character`. -/
def startGo (character : Nat) : List Char → Nat → Nat → Nat
  | [], _, tmp => tmp
  | c :: rest, i, tmp =>
    let tmp2 := if !(is_ident c) then i + 1 else tmp
    if i = character then tmp2 else startGo character rest (i + 1) tmp2

/-- `start_pos.character` for a line with characters `cs` and caret index
`character`. -/
def start_character (cs : List Char) (character : Nat) : Nat :=
  startGo character cs 0 1

/-- The `end_pos` loop of `convert_pos_to_span` (lsproto.rs:349-358):
iterate over the characters from index `character` on, breaking at the
first non-identifier character, otherwise setting `tmp` to
`i + character + 1`. -/
def endGo (character : Nat) : List Char → Nat → Nat → Nat
  | [], _, tmp => tmp
  | c :: rest, i, tmp =>
    if !(is_ident c) then tmp else endGo character rest (i + 1) (i + character + 1)

/-- `end_pos.character` for a line with characters `cs` and caret index
`character`. -/
def end_character (cs : List Char) (character : Nat) : Nat :=
  endGo character (cs.drop character) 0 character

/-- `LSService::convert_pos_to_span` (lsproto.rs:331-369). The collaborator
call `self.vfs.get_line(path, pos.line)` is passed in as `line` (the VFS is
external to this file); the source `.unwrap()`s it, so a missing line
panics. The file name strips the `file://` prefix by skipping its length
in characters. -/
def convert_pos_to_span (uri : String) (line : Option String) (pos : Position) :
    POutcome Span :=
  let fname := ((uri.toList).drop ("file://".length)).asString
  unwrapP line fun ltext =>
  let cs := ltext.toList
  let start_pos : Position := ⟨pos.line, start_character cs pos.character⟩
  let end_pos : Position := ⟨pos.line, end_character cs pos.character⟩
  POutcome.ok
    { file_name := fname,
      line_start := start_pos.line,
      column_start := start_pos.character,
      line_end := end_pos.line,
      column_end := end_pos.character }

/-! ## Reply envelopes and handlers (lsproto.rs:135-170, 371-528, 626-660) -/

/-- `ResponseSuccess<T>`. -/
structure ResponseSuccess (α : Type) where
  jsonrpc : String
  id : Nat
  result : α
deriving DecidableEq

/-- `ResponseError`. -/
structure ResponseError where
  code : Int
  message : String
deriving DecidableEq

/-- `ResponseFailure`. -/
structure ResponseFailure where
  jsonrpc : String
  id : Nat
  error : ResponseError
deriving DecidableEq

/-- The one outbound reply a handler passes to `output_response`: either a
success envelope or a failure envelope. -/
inductive Reply (α : Type) where
  | success (r : ResponseSuccess α)
  | failure (r : ResponseFailure)
deriving DecidableEq

/-- `MethodNotFound` (lsproto.rs:25): the catch-all error code. -/
def MethodNotFound : Int := -32601

structure MarkedString where
  language : String
  value : String
deriving DecidableEq

structure HoverSuccessContents where
  contents : List MarkedString
deriving DecidableEq

/-- The hover worker closure (lsproto.rs:482-505). The three backend
queries return `Result<String, _>`, modelled as `Option String`; each is
`unwrap_or`'d to the empty string, and a `MarkedString` is pushed for each
non-empty field in source order: docs, doc URL, type. -/
def hover_worker (id : Nat) (tyR docsR urlR : Option String) :
    ResponseSuccess HoverSuccessContents :=
  let ty := tyR.getD ""
  let docs := docsR.getD ""
  let doc_url := urlR.getD ""
  let contents0 : List MarkedString := []
  let contents1 := if !docs.isEmpty then contents0 ++ [⟨"markdown", docs⟩] else contents0
  let contents2 := if !doc_url.isEmpty then contents1 ++ [⟨"url", doc_url⟩] else contents1
  let contents3 := if !ty.isEmpty then contents2 ++ [⟨"rust", ty⟩] else contents2
  { jsonrpc := "2.0", id := id, result := { contents := contents3 } }

/-- The post-`join` match of `hover` (lsproto.rs:509-527): a finished
worker's reply is emitted as-is; a panicked worker (`join` returned `Err`)
yields the failure envelope. -/
def hover_reply (id : Nat) (joined : Option (ResponseSuccess HoverSuccessContents)) :
    Reply HoverSuccessContents :=
  match joined with
  | some r => Reply.success r
  | none =>
    Reply.failure
      { jsonrpc := "2.0", id := id,
        error := { code := MethodNotFound,
                   message := "Hover failed to complete successfully" } }

/-- `LSService::hover` (lsproto.rs:474-528): resolve the span (panicking on
a missing line), run the worker, join. `joinOk = false` models a worker
panic. The backend queries are the parameters `show_type`, `docs`,
`doc_url`. -/
def hover_handler (id : Nat) (uri : String) (line : Option String) (pos : Position)
    (show_type docs doc_url : Span → Option String) (joinOk : Bool) :
    POutcome (Reply HoverSuccessContents) :=
  match convert_pos_to_span uri line pos with
  | POutcome.panic => POutcome.panic
  | POutcome.err e => POutcome.err e
  | POutcome.ok span =>
    POutcome.ok (hover_reply id
      (if joinOk then some (hover_worker id (show_type span) (docs span) (doc_url span))
       else none))

/-- The `Location` list built by `find_all_refs` from the backend spans
(lsproto.rs:387-401): every field of every `Position` is copied verbatim
from the span. -/
def find_all_refs_locations (result : List Span) : List Location :=
  result.map fun item =>
    { uri := "file://" ++ item.file_name,
      range := { start := { line := item.line_start, character := item.column_start },
                 «end» := { line := item.line_end, character := item.column_end } } }

/-- `rustw_handle.join().ok().and_then(|t| t.ok()).unwrap_or(vec![])`
(lsproto.rs:386): `joined = none` models a panicked worker, an inner
`Except.error` a backend error; both collapse to the empty list. -/
def find_all_refs_result (joined : Option (Except String (List Span))) : List Span :=
  (joined.bind Except.toOption).getD []

/-- The reply `find_all_refs` builds (lsproto.rs:386-410): always a
success envelope, never a failure. -/
def find_all_refs_reply (id : Nat) (joined : Option (Except String (List Span))) :
    Reply (List Location) :=
  Reply.success
    { jsonrpc := "2.0", id := id,
      result := find_all_refs_locations (find_all_refs_result joined) }

/-- `LSService::find_all_refs` (lsproto.rs:371-411): resolve the span
(panicking on a missing line), query the backend in the worker, join,
reply. -/
def find_all_refs_handler (id : Nat) (uri : String) (line : Option String) (pos : Position)
    (backend : Span → Except String (List Span)) (joinOk : Bool) :
    POutcome (Reply (List Location)) :=
  match convert_pos_to_span uri line pos with
  | POutcome.panic => POutcome.panic
  | POutcome.err e => POutcome.err e
  | POutcome.ok span =>
    POutcome.ok (find_all_refs_reply id (if joinOk then some (backend span) else none))

/-- The goto-def worker closure (lsproto.rs:419-441): a defined span
becomes a one-element `Location` list whose start and end both copy the
span's `line_start`/`column_start`; a backend error becomes the empty
list. -/
def goto_def_worker (backend : Except String Span) : List Location :=
  match backend with
  | Except.ok s =>
    [{ uri := "file://" ++ s.file_name,
       range := { start := { line := s.line_start, character := s.column_start },
                  «end» := { line := s.line_start, character := s.column_start } } }]
  | Except.error _ => []

/-- The post-`join` match of `goto_def` (lsproto.rs:444-471). -/
def goto_def_reply (id : Nat) (joined : Option (List Location)) : Reply (List Location) :=
  match joined with
  | some r => Reply.success { jsonrpc := "2.0", id := id, result := r }
  | none =>
    Reply.failure
      { jsonrpc := "2.0", id := id,
        error := { code := MethodNotFound,
                   message := "GotoDef failed to complete successfully" } }

/-- `LSService::goto_def` (lsproto.rs:413-472). -/
def goto_def_handler (id : Nat) (uri : String) (line : Option String) (pos : Position)
    (backend : Span → Except String Span) (joinOk : Bool) :
    POutcome (Reply (List Location)) :=
  match convert_pos_to_span uri line pos with
  | POutcome.panic => POutcome.panic
  | POutcome.err e => POutcome.err e
  | POutcome.ok span =>
    POutcome.ok (goto_def_reply id (if joinOk then some (goto_def_worker (backend span)) else none))

/-! ## Initialize reply (lsproto.rs:122-127, 178-215, 626-657) -/

structure CompletionOptions where
  resolveProvider : Bool
  triggerCharacters : List String
deriving DecidableEq

structure SignatureHelpOptions where
  triggerCharacters : List String
deriving DecidableEq

structure ServerCapabilities where
  textDocumentSync : Nat
  hoverProvider : Bool
  completionProvider : CompletionOptions
  signatureHelpProvider : SignatureHelpOptions
  definitionProvider : Bool
  referencesProvider : Bool
  documentHighlightProvider : Bool
  documentSymbolProvider : Bool
  workshopSymbolProvider : Bool
  codeActionProvider : Bool
  codeLensProvider : Bool
  documentFormattingProvider : Bool
  documentRangeFormattingProvider : Bool
  renameProvider : Bool
deriving DecidableEq

structure InitializeCapabilities where
  capabilities : ServerCapabilities
deriving DecidableEq

inductive DocumentSyncKind where
  | None
  | Full
  | Incremental
deriving DecidableEq

/-- The `as usize` cast of the C-like enum (lsproto.rs:122-127, 633). -/
def DocumentSyncKind.toUsize : DocumentSyncKind → Nat
  | DocumentSyncKind.None => 0
  | DocumentSyncKind.Full => 1
  | DocumentSyncKind.Incremental => 2

/-- The reply `run_server` builds for an `Initialize` request
(lsproto.rs:626-657). `id` is the request id, in scope in the source but
not used: the envelope is built with `id: 0`. -/
def initialize_reply (id : Nat) (init : InitializeParams) :
    ResponseSuccess InitializeCapabilities :=
  { jsonrpc := "2.0",
    id := 0,
    result :=
      { capabilities :=
        { textDocumentSync := DocumentSyncKind.Incremental.toUsize,
          hoverProvider := true,
          completionProvider := { resolveProvider := true, triggerCharacters := ["."] },
          signatureHelpProvider := { triggerCharacters := ["."] },
          definitionProvider := true,
          referencesProvider := true,
          documentHighlightProvider := true,
          documentSymbolProvider := true,
          workshopSymbolProvider := true,
          codeActionProvider := false,
          codeLensProvider := false,
          documentFormattingProvider := true,
          documentRangeFormattingProvider := true,
          renameProvider := true } } }

/-! ## Helper lemmas -/

/-- If the character at the caret index is not an identifier character,
the `start_pos` loop returns the caret index plus one: the final update
`tmp.character = i + 1` fires on the very iteration that breaks. -/
theorem startGo_caret_nonident (ch : Nat) (c : Char) (hni : is_ident c = false) :
    ∀ (l : List Char) (i tmp : Nat), i ≤ ch → l.get? (ch - i) = some c →
      startGo ch l i tmp = ch + 1 := by
  intro l
  induction l with
  | nil => intro i tmp hle hget; simp at hget
  | cons a rest ih =>
    intro i tmp hle hget
    by_cases hi : i = ch
    · subst hi
      rw [Nat.sub_self] at hget
      simp only [List.get?_cons_zero, Option.some.injEq] at hget
      subst hget
      simp [startGo, hni]
    · have hlt : i < ch := lt_of_le_of_ne hle hi
      have hsub : ch - i = (ch - (i + 1)) + 1 := by omega
      rw [hsub] at hget
      simp only [List.get?_cons_succ] at hget
      have hrec := ih (i + 1) (if !(is_ident a) then i + 1 else tmp) (by omega) hget
      simp only [startGo]
      rw [if_neg hi]
      exact hrec

/-- A successful indexed lookup exposes the list from that index on. -/
theorem drop_caret (cs : List Char) (ch : Nat) (c : Char) (hget : cs.get? ch = some c) :
    ∃ rest, cs.drop ch = c :: rest := by
  induction cs generalizing ch with
  | nil => simp at hget
  | cons a l ih =>
    cases ch with
    | zero =>
      simp only [List.get?_cons_zero, Option.some.injEq] at hget
      subst hget
      exact ⟨l, rfl⟩
    | succ n =>
      simp only [List.get?_cons_succ] at hget
      simpa using ih n hget

/-- If the character at the caret index is not an identifier character,
the `end_pos` loop breaks at once and returns the caret index. -/
theorem end_character_caret_nonident (cs : List Char) (ch : Nat) (c : Char)
    (hget : cs.get? ch = some c) (hni : is_ident c = false) :
    end_character cs ch = ch := by
  obtain ⟨rest, hdrop⟩ := drop_caret cs ch c hget
  simp [end_character, hdrop, endGo, hni]

/-! ## Claims -/

/-- Claim C1: FALSIFIED BY THE CODE (code bug). The claim (and spec §8
scenario 1) says the reply to an `initialize` request with id `I` carries
id `I`; the `Initialize` branch of `run_server` (lsproto.rs:630) builds
the envelope with a hard-coded `id: 0`, leaving the in-scope request id
unused, so the reply to the initialize request with id 1 carries id 0. -/
theorem initialize_reply_id_is_zero :
    (initialize_reply 1 { processId := 42, rootPath := "/tmp/p" }).id = 0 := rfl

/-- Claim C2, counterexample: a body that is not valid JSON, a request
method without an id, and a request method without params all make
`parse_message` panic (crashing the process) rather than producing a
logged, non-fatal parse error. -/
theorem parse_message_panics_on_bad_input :
    parse_message none = POutcome.panic ∧
    parse_message (some (Json.obj [("method", Json.str "shutdown")])) = POutcome.panic ∧
    parse_message (some (Json.obj [("method", Json.str "initialize"), ("id", Json.num 1)])) =
      POutcome.panic :=
  ⟨rfl, rfl, rfl⟩

/-- Claim C2 as amended: only an absent `method` field, a non-string
`method`, or an unknown method name yield the logged `InvalidData` parse
error, after which the reader loop continues with no reply sent; a body
that is not valid JSON, or a known request method with a missing id or
missing params, panics through `.unwrap()` and crashes the process. -/
theorem parse_error_handling (j : Json) (name : String) (i : Nat) :
    (parse_message none = POutcome.panic) ∧
    (j.lookup "method" = none →
      parse_message (some j) = POutcome.err "Method not found" ∧
      message_step (parse_message (some j)) = LoopAction.cont) ∧
    ((∃ v, j.lookup "method" = some v ∧ v.as_str = none) →
      parse_message (some j) = POutcome.err "Method is not a string" ∧
      message_step (parse_message (some j)) = LoopAction.cont) ∧
    (j.lookup "method" = some (Json.str name) → name ∉ knownMethodNames →
      parse_message (some j) = POutcome.err "Unknown command" ∧
      message_step (parse_message (some j)) = LoopAction.cont) ∧
    (j.lookup "method" = some (Json.str "shutdown") → j.lookup "id" = none →
      parse_message (some j) = POutcome.panic) ∧
    (j.lookup "method" = some (Json.str "initialize") → j.lookup "id" = some (Json.num i) →
      j.lookup "params" = none → parse_message (some j) = POutcome.panic) := by
  refine ⟨rfl, ?_, ?_, ?_, ?_, ?_⟩
  · intro hm
    have hp : parse_message (some j) = POutcome.err "Method not found" := by
      simp [parse_message, unwrapP, hm]
    exact ⟨hp, by rw [hp]; rfl⟩
  · rintro ⟨v, hm, hs⟩
    have hp : parse_message (some j) = POutcome.err "Method is not a string" := by
      simp [parse_message, unwrapP, hm, hs]
    exact ⟨hp, by rw [hp]; rfl⟩
  · intro hm hn
    simp only [knownMethodNames, List.mem_cons, List.not_mem_nil, or_false] at hn
    push_neg at hn
    obtain ⟨h1, h2, h3, h4, h5, h6, h7⟩ := hn
    have hp : parse_message (some j) = POutcome.err "Unknown command" := by
      simp [parse_message, unwrapP, hm, Json.as_str, h1, h2, h3, h4, h5, h6, h7]
    exact ⟨hp, by rw [hp]; rfl⟩
  · intro hm hid
    simp [parse_message, unwrapP, hm, hid, Json.as_str]
  · intro hm hid hparams
    simp [parse_message, unwrapP, hm, hid, hparams, Json.as_str, Json.as_u64]

/-- Claim C2 witness: evaluating the amended theorem on a concrete
unknown-method body. -/
theorem parse_error_handling_witness :
    parse_message (some (Json.obj [("method", Json.str "foo")])) =
      POutcome.err "Unknown command" ∧
    message_step (parse_message (some (Json.obj [("method", Json.str "foo")]))) =
      LoopAction.cont :=
  (parse_error_handling (Json.obj [("method", Json.str "foo")]) "foo" 0).2.2.2.1 rfl
    (by decide)


/-- Claim C3, counterexample: a header line whose name is not
`Content-Length` is accepted (its integer is used as the body length)
rather than treated as a fatal stream error, and a non-integer length
value makes the loop `break` so `run_server` returns `Ok(())`, not an I/O
error: the source's check `res[0] == "Content-length:"` is inverted. -/
theorem header_step_accepts_non_content_length :
    header_step "Foo: 10\n" = HeaderOutcome.readBody 10 ∧
    header_step "Content-Length: five\r\n" = HeaderOutcome.breakClean "five\r\n" :=
  ⟨by decide, by decide⟩

/-- Claim C3 as amended: the reader returns an I/O error only when the
header line does not split on a single space into exactly two fields, or
when the first field is exactly the lowercase `Content-length:`; any other
two-field header whose trimmed second field parses as an integer `N` is
accepted — whether or not the name is `Content-Length` — and exactly `N`
body bytes are then read (a shorter stream is a fatal truncated-body I/O
error); a non-integer length value terminates the loop with `Ok(())`
instead of an error. -/
theorem header_framing_behavior (buffer : String) (n : Nat) (stream : List Nat) :
    ((splitSpace buffer).length ≠ 2 →
      header_step buffer = HeaderOutcome.fatalMalformed buffer) ∧
    ((splitSpace buffer).length = 2 → (splitSpace buffer).getD 0 "" = "Content-length:" →
      header_step buffer = HeaderOutcome.fatalLowercase) ∧
    ((splitSpace buffer).length = 2 → (splitSpace buffer).getD 0 "" ≠ "Content-length:" →
      from_str_radix_10 (rustTrim ((splitSpace buffer).getD 1 "")) = some n →
      header_step buffer = HeaderOutcome.readBody n) ∧
    ((splitSpace buffer).length = 2 → (splitSpace buffer).getD 0 "" ≠ "Content-length:" →
      from_str_radix_10 (rustTrim ((splitSpace buffer).getD 1 "")) = none →
      header_step buffer = HeaderOutcome.breakClean ((splitSpace buffer).getD 1 "")) ∧
    (n ≤ stream.length →
      read_exact n stream = Except.ok (stream.take n, stream.drop n) ∧
      (stream.take n).length = n ∧ stream.take n ++ stream.drop n = stream) ∧
    (stream.length < n → read_exact n stream = Except.error "truncated body") := by
  refine ⟨?_, ?_, ?_, ?_, ?_, ?_⟩
  · intro h; simp [header_step, h]
  · intro h2 hlc
    obtain ⟨a, b, hab⟩ := List.length_eq_two.mp h2
    rw [hab] at hlc
    simp only [List.getD_cons_zero] at hlc
    simp [header_step, hab, hlc]
  · intro h2 hlc hparse
    obtain ⟨a, b, hab⟩ := List.length_eq_two.mp h2
    rw [hab] at hlc hparse
    simp only [List.getD_cons_zero, List.getD_cons_succ] at hlc hparse
    simp [header_step, hab, hlc, hparse]
  · intro h2 hlc hparse
    obtain ⟨a, b, hab⟩ := List.length_eq_two.mp h2
    rw [hab] at hlc hparse
    simp only [List.getD_cons_zero, List.getD_cons_succ] at hlc hparse
    simp [header_step, hab, hlc, hparse]
  · intro hle
    refine ⟨by simp [read_exact, hle], ?_, List.take_append_drop n stream⟩
    simp [List.length_take, Nat.min_eq_left hle]
  · intro hlt
    simp [read_exact, Nat.not_le.mpr hlt]

/-- Claim C3 witness: evaluating the amended theorem on the canonical
header `Content-Length: 2` and a three-byte stream. -/
theorem header_framing_behavior_witness :
    header_step "Content-Length: 2\r\n" = HeaderOutcome.readBody 2 ∧
    read_exact 2 [9, 9, 9] = Except.ok ([9, 9], [9]) :=
  ⟨(header_framing_behavior "Content-Length: 2\r\n" 2 [9, 9, 9]).2.2.1
      (by decide) (by decide) (by decide),
   ((header_framing_behavior "Content-Length: 2\r\n" 2 [9, 9, 9]).2.2.2.2.1
      (by decide)).1⟩

/-- Claim C4, counterexample: a hover request whose position refers to a
line the VFS does not have panics (through `.unwrap()` of the missing
line in `convert_pos_to_span`) instead of reporting a failure envelope:
no reply of any kind is produced and the dispatcher thread aborts. -/
theorem hover_missing_line_no_reply :
    hover_handler 3 "file:///x.src" none ⟨0, 2⟩
        (fun _ => none) (fun _ => none) (fun _ => none) true = POutcome.panic := rfl

/-- Claim C4 as amended: for every Hover, GotoDef, or FindAllRef request
whose position refers to a line the VFS does not have, the handler panics
in `convert_pos_to_span` (the `.unwrap()` of the missing line), emitting
no failure envelope and aborting the server, whatever the backend or the
worker would have done. -/
theorem missing_line_panics (id : Nat) (uri : String) (pos : Position)
    (st dc du : Span → Option String) (gb : Span → Except String Span)
    (fb : Span → Except String (List Span)) (jOk : Bool) :
    hover_handler id uri none pos st dc du jOk = POutcome.panic ∧
    goto_def_handler id uri none pos gb jOk = POutcome.panic ∧
    find_all_refs_handler id uri none pos fb jOk = POutcome.panic :=
  ⟨rfl, rfl, rfl⟩

/-- Claim C5, counterexample: on the line `foo_bar baz` with the caret at
character index 2, the resolved span has `column_end = 7` (the zero-based
index one past the last identifier character), not the claimed 8. -/
theorem resolver_foo_bar_not_eight :
    convert_pos_to_span "file:///x.src" (some "foo_bar baz") ⟨0, 2⟩ ≠
      POutcome.ok ⟨"/x.src", 0, 1, 0, 8⟩ ∧
    convert_pos_to_span "file:///x.src" (some "foo_bar baz") ⟨0, 2⟩ =
      POutcome.ok ⟨"/x.src", 0, 1, 0, 7⟩ :=
  ⟨by decide, by decide⟩

/-- Claim C5 as amended: for a line whose text is `foo_bar baz` and every
caret position with character index inside `foo_bar` (indices 0 through
6), the resolver produces a span with `column_start = 1` and
`column_end = 7`, i.e. the one-based start column of `foo_bar` and the
zero-based index one past its last character. -/
theorem resolver_foo_bar_span (line ch : Nat) (h : ch ≤ 6) :
    convert_pos_to_span "file:///x.src" (some "foo_bar baz") ⟨line, ch⟩ =
      POutcome.ok ⟨"/x.src", line, 1, line, 7⟩ := by
  interval_cases ch <;> rfl

/-- Claim C5 witness: the amended theorem evaluated at caret index 2. -/
theorem resolver_foo_bar_span_witness :
    convert_pos_to_span "file:///x.src" (some "foo_bar baz") ⟨0, 2⟩ =
      POutcome.ok ⟨"/x.src", 0, 1, 0, 7⟩ :=
  resolver_foo_bar_span 0 2 (by decide)

/-- Claim C7: CONFIRMED. The hover worker defaults each backend field to
the empty string on failure and builds the contents list with exactly one
`MarkedString` per non-empty field, in the order docs (`markdown`),
doc URL (`url`), type (`rust`), and nothing else; the envelope is a
success carrying the request id. -/
theorem hover_contents_ordered (id : Nat) (tyR docsR urlR : Option String) :
    (hover_worker id tyR docsR urlR).result.contents =
      List.filter (fun m => !m.value.isEmpty)
        [⟨"markdown", docsR.getD ""⟩, ⟨"url", urlR.getD ""⟩, ⟨"rust", tyR.getD ""⟩] ∧
    (hover_worker id tyR docsR urlR).jsonrpc = "2.0" ∧
    (hover_worker id tyR docsR urlR).id = id := by
  refine ⟨?_, rfl, rfl⟩
  simp only [hover_worker, List.filter]
  cases hd : (docsR.getD "").isEmpty <;> cases hu : (urlR.getD "").isEmpty <;>
    cases ht : (tyR.getD "").isEmpty <;> simp [hd, hu, ht]

/-- Claim C8: CONFIRMED. `find_all_refs` only ever builds a success
envelope, and whenever the backend query yields no result (worker panic,
i.e. `join()` returns `Err`, or a backend error) the result is the empty
array. -/
theorem find_all_refs_fallback_empty_success (id : Nat)
    (joined : Option (Except String (List Span)))
    (h : joined = none ∨ ∃ e, joined = some (Except.error e)) :
    find_all_refs_reply id joined =
      Reply.success { jsonrpc := "2.0", id := id, result := [] } ∧
    ∀ j2 : Option (Except String (List Span)),
      ∃ r, find_all_refs_reply id j2 = Reply.success r := by
  constructor
  · rcases h with h | ⟨e, h⟩ <;> subst h <;> rfl
  · intro j2; exact ⟨_, rfl⟩

/-- Claim C8 witness: the theorem evaluated at id 5 with a panicked
worker. -/
theorem find_all_refs_fallback_empty_success_witness :
    find_all_refs_reply 5 none =
      Reply.success { jsonrpc := "2.0", id := 5, result := [] } :=
  (find_all_refs_fallback_empty_success 5 none (Or.inl rfl)).1

/-- Claim C9, counterexample: on the line `a b` with the caret at
character index 1 (the space), the resolver yields
`column_start = 2 = character + 1` and `column_end = 1 = character`: the
start does not collapse to `character`, because the loop updates
`tmp.character = i + 1` on the caret character before breaking. -/
theorem resolver_nonident_not_collapsed :
    convert_pos_to_span "file:///x.src" (some "a b") ⟨0, 1⟩ =
      POutcome.ok ⟨"/x.src", 0, 2, 0, 1⟩ ∧
    convert_pos_to_span "file:///x.src" (some "a b") ⟨0, 1⟩ ≠
      POutcome.ok ⟨"/x.src", 0, 1, 0, 1⟩ :=
  ⟨by decide, by decide⟩

/-- Claim C9 as amended: for every line and every caret position whose
character index falls on a non-identifier character (not alphanumeric and
not an underscore), the resolver produces a span with
`column_start = character + 1` and `column_end = character`. -/
theorem resolver_nonident_caret (uri lineText : String) (pos : Position) (c : Char)
    (hget : lineText.toList.get? pos.character = some c)
    (hni : is_ident c = false) :
    convert_pos_to_span uri (some lineText) pos =
      POutcome.ok ⟨((uri.toList).drop ("file://".length)).asString,
                   pos.line, pos.character + 1, pos.line, pos.character⟩ := by
  have hs : start_character lineText.toList pos.character = pos.character + 1 := by
    have := startGo_caret_nonident pos.character c hni lineText.toList 0 1
      (Nat.zero_le _) (by simpa using hget)
    simpa [start_character] using this
  have he : end_character lineText.toList pos.character = pos.character :=
    end_character_caret_nonident lineText.toList pos.character c hget hni
  have hs2 : start_character lineText.data pos.character = pos.character + 1 := hs
  have he2 : end_character lineText.data pos.character = pos.character := he
  simp [convert_pos_to_span, unwrapP, hs2, he2]

/-- Claim C9 witness: the amended theorem evaluated on the line `a b`
with the caret on the space at index 1. -/
theorem resolver_nonident_caret_witness :
    convert_pos_to_span "file:///x.src" (some "a b") ⟨0, 1⟩ =
      POutcome.ok ⟨"/x.src", 0, 2, 0, 1⟩ :=
  resolver_nonident_caret "file:///x.src" "a b" ⟨0, 1⟩ ' ' (by decide) (by decide)

/-- Claim C10: CONFIRMED. Every `Location` built by `find_all_refs` and
`goto_def` copies the `line`/`character` fields verbatim from the backend
span's `line_start`/`column_start`/`line_end`/`column_end` (for goto-def,
start fields at both ends of the zero-width range), with no conversion
between the span's one-based columns and the editor's zero-based
`character` coordinates. -/
theorem locations_copy_span_fields (spans : List Span) (s : Span) :
    (find_all_refs_locations spans).map
        (fun l => (l.range.start.line, l.range.start.character,
                   l.range.«end».line, l.range.«end».character)) =
      spans.map (fun sp => (sp.line_start, sp.column_start, sp.line_end, sp.column_end)) ∧
    (find_all_refs_locations spans).map Location.uri =
      spans.map (fun sp => "file://" ++ sp.file_name) ∧
    goto_def_worker (Except.ok s) =
      [{ uri := "file://" ++ s.file_name,
         range := { start := { line := s.line_start, character := s.column_start },
                    «end» := { line := s.line_start, character := s.column_start } } }] := by
  refine ⟨?_, ?_, rfl⟩ <;> simp [find_all_refs_locations, List.map_map, Function.comp]

end RLS
